import Mathlib

/-
Verification of the Lot_Credit_Note reconciliation-and-posting pipeline
(src/app.py) against its specification.

The embedding models the three pipeline functions of app.py:
  * process_single_file (lines 151-191): the Row Normalizer;
  * process_files (lines 193-224): the Dataset Combiner;
  * process_odoo_integration (lines 226-335): the Aggregator and the
    Remote Ledger Poster.

Modelling conventions:
  * spreadsheet numeric cells (prices, quantities, discount percentages)
    are rational numbers; pandas floats are modelled exactly by Rat;
  * a text cell that may be missing (pandas NaN) is an Option String;
    pyStr models Python str() as applied by pandas, rendering a missing
    value as the string "nan" exactly as `astype(str)` does;
  * the remote Odoo service is an explicit environment of lookup
    functions (search with limit 1 yields at most one id) plus a create
    function returning the new document id;
  * dates are day numbers: `today` is a parameter, and `today + 1`
    models `date.today() + timedelta(days=1)`; string formatting of
    dates is out of scope (spec §1 excludes the codec layer).
-/

/-- Python str() applied to a possibly missing text cell: pandas renders
a NaN cell as the string "nan" under astype(str). -/
def pyStr : Option String → String
  | some s => s
  | none => "nan"

/-- One raw row of the inventory report ("Processed Returns" sheet),
restricted to the columns selected at app.py line 158. `discount` is
optional because line 165 fills missing discounts with 0. -/
structure RawInvRow where
  lot : Option String
  product_name : String
  vendor : String
  cost_price : Rat
  discount : Option Rat
deriving DecidableEq

/-- One raw row of the ODOO PO export ("PO_Results" sheet), restricted to
the columns selected at app.py line 175. -/
structure RawOdooRow where
  barcode : Option String
  product_name : String
  product_ref : String
  vendor_name : String
  Unit_Price : Rat
deriving DecidableEq

/-- The common normalized row shape produced by process_single_file
(app.py lines 168 and 186): fields listed in the column order of the
final selection. -/
structure NormalizedRow where
  vendor_name : String
  product_name : String
  unit_price : Rat
  label : String
  quantity : Rat
  discount : Rat
  source : String
deriving DecidableEq

/-- Inventory branch of process_single_file (app.py lines 153-168),
rendered per row: vendor_name := vendor, unit_price := cost_price,
label := str(lot), quantity := 1, missing discount := 0. -/
def processInventoryRow (r : RawInvRow) : NormalizedRow where
  vendor_name := r.vendor
  product_name := r.product_name
  unit_price := r.cost_price
  label := pyStr r.lot
  quantity := 1
  discount := r.discount.getD 0
  source := "inventory"

/-- ODOO branch of process_single_file (app.py lines 170-186), rendered
per row: label := str(barcode), product_name replaced by the literal
"LOT SAREES", quantity := 1, discount := 0. -/
def processOdooRow (r : RawOdooRow) : NormalizedRow where
  vendor_name := r.vendor_name
  product_name := "LOT SAREES"
  unit_price := r.Unit_Price
  label := pyStr r.barcode
  quantity := 1
  discount := 0
  source := "odoo"

/-- process_single_file on an inventory file: row-wise normalization. -/
def processSingleFileInv (rows : List RawInvRow) : List NormalizedRow :=
  rows.map processInventoryRow

/-- process_single_file on an ODOO file: row-wise normalization. -/
def processSingleFileOdoo (rows : List RawOdooRow) : List NormalizedRow :=
  rows.map processOdooRow

/-- process_files (app.py lines 193-224). `none` models an absent upload;
a supplied file is its parsed row list. Empty results behave exactly as
the pandas `.empty` tests on lines 208-216: when both processed tables
are nonempty they are concatenated inventory-first, when exactly one is
nonempty it is returned unchanged, and otherwise the function raises
"No valid files provided", which line 224 wraps with the contextual
message. The to_numeric discount coercion of line 219 is the identity
on this typed model (discounts are already numeric). -/
def processFiles (inventory_file : Option (List RawInvRow))
    (odoo_file : Option (List RawOdooRow)) : Except String (List NormalizedRow) :=
  let inventory_final : List NormalizedRow :=
    match inventory_file with
    | some f => processSingleFileInv f
    | none => []
  let odoo_final : List NormalizedRow :=
    match odoo_file with
    | some f => processSingleFileOdoo f
    | none => []
  if ¬inventory_final.isEmpty ∧ ¬odoo_final.isEmpty then
    Except.ok (inventory_final ++ odoo_final)
  else if ¬inventory_final.isEmpty then
    Except.ok inventory_final
  else if ¬odoo_final.isEmpty then
    Except.ok odoo_final
  else
    Except.error "Error processing files: No valid files provided"

/-- A spreadsheet cell value written by the merge step: text or numeric. -/
inductive CellValue where
  | str : String → CellValue
  | num : Rat → CellValue
deriving DecidableEq

/-- The (column name, cell) record a NormalizedRow occupies in the merged
output table, in the column order of app.py lines 168/186/196. -/
def NormalizedRow.record (r : NormalizedRow) : List (String × CellValue) :=
  [("vendor_name", CellValue.str r.vendor_name),
   ("product_name", CellValue.str r.product_name),
   ("unit_price", CellValue.num r.unit_price),
   ("label", CellValue.str r.label),
   ("quantity", CellValue.num r.quantity),
   ("discount", CellValue.num r.discount),
   ("source", CellValue.str r.source)]

/-- Column order of the merged output as the code writes it
(app.py lines 168, 186, 196). -/
def finalColumns : List String :=
  ["vendor_name", "product_name", "unit_price", "label", "quantity",
   "discount", "source"]

/-- Column order as stated by the spec's words (§6: "columns vendor_name,
product_name, unit_price, label, quantity, source[, discount]"), kept
for comparison with finalColumns. -/
def specMergedColumns : List String :=
  ["vendor_name", "product_name", "unit_price", "label", "quantity",
   "source", "discount"]

/-- Concrete inventory row used to instantiate theorems (the spec §8
end-to-end example row). -/
def wInvRow : RawInvRow where
  lot := some "L1"
  product_name := "Saree"
  vendor := "V1"
  cost_price := 100
  discount := some 10

/-- Concrete ODOO row used to instantiate theorems. -/
def wOdooRow : RawOdooRow where
  barcode := some "B9"
  product_name := "PO Saree"
  product_ref := "R9"
  vendor_name := "V2"
  Unit_Price := 50

/-- One row of the posting-stage input after the rename of app.py lines
238-245. The four key cells are plain values: pandas groupby silently
drops a row whose key holds a missing value, so the embedding ranges
over tables whose key cells are present (the tables the merge stage
itself writes). LotNumber is a possibly missing text cell; the join of
line 260 skips missing values via pd.notna. -/
structure PostRow where
  Vendor : String
  Product : String
  CostPrice : Rat
  Discount : Rat
  Quantity : Rat
  LotNumber : Option String
deriving DecidableEq

/-- The grouping key of app.py line 258: (Vendor, Product, CostPrice,
Discount). -/
def groupKey (r : PostRow) : String × String × Rat × Rat :=
  (r.Vendor, r.Product, r.CostPrice, r.Discount)

/-- Distinct values of a list in first-seen order, carrying the set of
values already emitted. -/
def firstSeenAux {α : Type} [DecidableEq α] (seen : List α) : List α → List α
  | [] => []
  | a :: l =>
    if a ∈ seen then firstSeenAux seen l else a :: firstSeenAux (a :: seen) l

/-- Distinct values of a list in first-seen order (the distinct group
keys before pandas sorts them). -/
def firstSeen {α : Type} [DecidableEq α] (l : List α) : List α :=
  firstSeenAux [] l

/-- Code-point lexicographic strict order on character lists, modelling
Python string comparison. -/
def charListLt : List Char → List Char → Bool
  | _, [] => false
  | [], _ :: _ => true
  | a :: as, b :: bs => a < b || (a = b && charListLt as bs)

/-- Python string order (by code points). -/
def strLt (a b : String) : Bool := charListLt a.data b.data

/-- Python non-strict string order. -/
def strLe (a b : String) : Bool := strLt a b || a = b

/-- Python tuple order on group keys: lexicographic by component, the
order pandas sorts group keys in. -/
def keyLE (a b : String × String × Rat × Rat) : Bool :=
  strLt a.1 b.1 ||
    (a.1 = b.1 && (strLt a.2.1 b.2.1 ||
      (a.2.1 = b.2.1 && (a.2.2.1 < b.2.2.1 ||
        (a.2.2.1 = b.2.2.1 && a.2.2.2 ≤ b.2.2.2)))))

/-- The rows of a table belonging to a given group key, in input order. -/
def groupRows (rows : List PostRow) (k : String × String × Rat × Rat) :
    List PostRow :=
  rows.filter (fun r => groupKey r = k)

/-- One row of df_grouped (app.py lines 258-261): the group key together
with the summed quantity and the joined lot labels. -/
structure GroupedRow where
  Vendor : String
  Product : String
  CostPrice : Rat
  Discount : Rat
  Quantity : Rat
  LotNumber : String
deriving DecidableEq

/-- The aggregated row of one group key (app.py lines 258-261):
Quantity is the sum of the group's quantities and LotNumber is the
", "-join of the group's present lot cells in input order (line 260
skips NaN values via pd.notna). -/
def mkGrouped (rows : List PostRow) (k : String × String × Rat × Rat) :
    GroupedRow where
  Vendor := k.1
  Product := k.2.1
  CostPrice := k.2.2.1
  Discount := k.2.2.2
  Quantity := ((groupRows rows k).map PostRow.Quantity).sum
  LotNumber := String.intercalate ", " ((groupRows rows k).filterMap PostRow.LotNumber)

/-- The distinct group keys in the sorted order pandas emits groups. -/
def sortedKeys (rows : List PostRow) : List (String × String × Rat × Rat) :=
  (firstSeen (rows.map groupKey)).insertionSort (fun a b => keyLE a b = true)

/-- df_grouped of app.py line 258: one aggregated row per distinct key,
in sorted key order. -/
def dfGrouped (rows : List PostRow) : List GroupedRow :=
  (sortedKeys rows).map (mkGrouped rows)

/-- The key cells of an aggregated row. -/
def groupedKey (g : GroupedRow) : String × String × Rat × Rat :=
  (g.Vendor, g.Product, g.CostPrice, g.Discount)

theorem mem_firstSeenAux {α : Type} [DecidableEq α] (seen l : List α) (x : α) :
    x ∈ firstSeenAux seen l ↔ x ∈ l ∧ x ∉ seen := by
  induction l generalizing seen with
  | nil => simp [firstSeenAux]
  | cons a l ih =>
    by_cases ha : a ∈ seen
    · rw [firstSeenAux, if_pos ha, ih]
      constructor
      · rintro ⟨hx, hs⟩
        exact ⟨List.mem_cons_of_mem a hx, hs⟩
      · rintro ⟨hx, hs⟩
        rcases List.mem_cons.mp hx with h1 | h1
        · exact absurd (h1 ▸ ha) hs
        · exact ⟨h1, hs⟩
    · rw [firstSeenAux, if_neg ha]
      constructor
      · intro hx
        rcases List.mem_cons.mp hx with h1 | h1
        · exact ⟨h1 ▸ List.mem_cons_self a l, h1 ▸ ha⟩
        · rcases (ih (a :: seen)).mp h1 with ⟨hl, hs⟩
          exact ⟨List.mem_cons_of_mem a hl,
            fun hmem => hs (List.mem_cons_of_mem a hmem)⟩
      · rintro ⟨hx, hs⟩
        rcases List.mem_cons.mp hx with h1 | h1
        · exact h1 ▸ List.mem_cons_self a _
        · by_cases hxa : x = a
          · exact hxa ▸ List.mem_cons_self a _
          · refine List.mem_cons_of_mem a ((ih (a :: seen)).mpr ⟨h1, ?_⟩)
            intro hmem
            rcases List.mem_cons.mp hmem with h2 | h2
            · exact hxa h2
            · exact hs h2

theorem nodup_firstSeenAux {α : Type} [DecidableEq α] (seen l : List α) :
    (firstSeenAux seen l).Nodup := by
  induction l generalizing seen with
  | nil => simp [firstSeenAux]
  | cons a l ih =>
    by_cases ha : a ∈ seen
    · rw [firstSeenAux, if_pos ha]; exact ih seen
    · rw [firstSeenAux, if_neg ha]
      refine List.nodup_cons.mpr ⟨?_, ih (a :: seen)⟩
      intro hmem
      exact ((mem_firstSeenAux _ _ _).mp hmem).2 (List.mem_cons_self a seen)

theorem filter_eq_nil_of_not_mem {α : Type} [DecidableEq α] {l : List α}
    {k : α} (h : k ∉ l) : l.filter (fun x => x = k) = [] := by
  induction l with
  | nil => rfl
  | cons a l ih =>
    simp only [List.mem_cons, not_or] at h
    have hak : a ≠ k := fun hak => h.1 hak.symm
    simp [List.filter_cons, hak, ih h.2]

theorem filter_eq_singleton {α : Type} [DecidableEq α] {l : List α} {k : α}
    (hn : l.Nodup) (hm : k ∈ l) : l.filter (fun x => x = k) = [k] := by
  induction l with
  | nil => cases hm
  | cons a l ih =>
    rcases List.nodup_cons.mp hn with ⟨hal, hln⟩
    rcases List.mem_cons.mp hm with h1 | h1
    · subst h1
      simp [List.filter_cons, filter_eq_nil_of_not_mem hal]
    · have hak : a ≠ k := fun he => hal (he ▸ h1)
      simp [List.filter_cons, hak, ih hln h1]

/-- C1: for every posting input table and every group key present in it,
the Aggregator emits exactly one aggregated row with that key; its
quantity is the sum q1+...+qk of the quantities of the key's k
occurrences, and its label is the ", "-joined sequence of the group's
present (non-missing) input labels in first-seen input order. -/
theorem C1_aggregator_sum_and_join (rows : List PostRow)
    (k : String × String × Rat × Rat) (h : ∃ r ∈ rows, groupKey r = k) :
    (dfGrouped rows).filter (fun g => groupedKey g = k) =
      [{ Vendor := k.1, Product := k.2.1, CostPrice := k.2.2.1,
         Discount := k.2.2.2,
         Quantity := ((rows.filter (fun r => groupKey r = k)).map
           PostRow.Quantity).sum,
         LotNumber := String.intercalate ", "
           ((rows.filter (fun r => groupKey r = k)).filterMap
             PostRow.LotNumber) }] := by
  have hk : k ∈ firstSeen (rows.map groupKey) := by
    rcases h with ⟨r, hr, hkr⟩
    exact (mem_firstSeenAux [] _ k).mpr
      ⟨hkr ▸ List.mem_map_of_mem groupKey hr, by simp⟩
  have hperm := List.perm_insertionSort (fun a b => keyLE a b = true)
    (firstSeen (rows.map groupKey))
  have hk2 : k ∈ sortedKeys rows := hperm.mem_iff.mpr hk
  have hnd2 : (sortedKeys rows).Nodup :=
    hperm.symm.nodup (nodup_firstSeenAux [] _)
  show (List.map (mkGrouped rows) (sortedKeys rows)).filter
      (fun g => groupedKey g = k) = [mkGrouped rows k]
  rw [List.filter_map]
  have hcomp : ((fun g => decide (groupedKey g = k)) ∘ mkGrouped rows) =
      fun k2 => decide (k2 = k) := by
    funext k2; rfl
  rw [hcomp, filter_eq_singleton hnd2 hk2]
  rfl

/-- Concrete posting rows used to instantiate the aggregation theorem:
two rows of one group and one row of another. -/
def wPostRow1 : PostRow where
  Vendor := "V1"
  Product := "Saree"
  CostPrice := 100
  Discount := 10
  Quantity := 1
  LotNumber := some "L1"

/-- Second concrete posting row, same group key as the first. -/
def wPostRow2 : PostRow where
  Vendor := "V1"
  Product := "Saree"
  CostPrice := 100
  Discount := 10
  Quantity := 1
  LotNumber := some "L2"

/-- Third concrete posting row, a different group key. -/
def wPostRow3 : PostRow where
  Vendor := "V2"
  Product := "Shawl"
  CostPrice := 50
  Discount := 0
  Quantity := 1
  LotNumber := none

/-- C1 witness: a key occurring twice in a three-row table has its
hypothesis discharged concretely and the aggregation equality
instantiated there. -/
theorem C1_aggregator_sum_and_join_witness :
    (∃ r ∈ [wPostRow1, wPostRow2, wPostRow3],
      groupKey r = ("V1", "Saree", (100 : Rat), (10 : Rat))) ∧
    (dfGrouped [wPostRow1, wPostRow2, wPostRow3]).filter
        (fun g => groupedKey g = ("V1", "Saree", (100 : Rat), (10 : Rat))) =
      [{ Vendor := "V1", Product := "Saree", CostPrice := 100, Discount := 10,
         Quantity := (([wPostRow1, wPostRow2, wPostRow3].filter
           (fun r => groupKey r = ("V1", "Saree", (100 : Rat), (10 : Rat)))).map
             PostRow.Quantity).sum,
         LotNumber := String.intercalate ", "
           (([wPostRow1, wPostRow2, wPostRow3].filter
             (fun r => groupKey r = ("V1", "Saree", (100 : Rat), (10 : Rat)))).filterMap
               PostRow.LotNumber) }] :=
  ⟨⟨wPostRow1, by decide⟩,
   C1_aggregator_sum_and_join [wPostRow1, wPostRow2, wPostRow3]
     ("V1", "Saree", (100 : Rat), (10 : Rat)) ⟨wPostRow1, by decide⟩⟩

/-- C4: every valid raw input row normalizes to quantity exactly 1; the
inventory branch takes label = str(lot) and unit_price = cost_price
unconditionally, and a missing discount (and only a missing one)
becomes 0; the ODOO branch takes label = str(barcode), replaces the
product name with the fixed literal "LOT SAREES", and forces discount
to 0. -/
theorem C4_row_normalizer (r : RawInvRow) (s : RawOdooRow) :
    (processInventoryRow r).quantity = 1 ∧
    (processInventoryRow r).label = pyStr r.lot ∧
    (processInventoryRow r).unit_price = r.cost_price ∧
    (r.discount = none → (processInventoryRow r).discount = 0) ∧
    (processOdooRow s).quantity = 1 ∧
    (processOdooRow s).label = pyStr s.barcode ∧
    (processOdooRow s).product_name = "LOT SAREES" ∧
    (processOdooRow s).discount = 0 := by
  refine ⟨rfl, rfl, rfl, ?_, rfl, rfl, rfl, rfl⟩
  intro hd
  simp [processInventoryRow, hd]

/-- C4 witness: the unconditional normalizer facts evaluated at a
concrete inventory row carrying a present discount and at a concrete
ODOO row, and the discount-defaulting fact discharged at the same
inventory row with its discount cell missing. -/
theorem C4_row_normalizer_witness :
    (processInventoryRow wInvRow).quantity = 1 ∧
    (processInventoryRow wInvRow).label = pyStr (some "L1") ∧
    (processInventoryRow wInvRow).unit_price = 100 ∧
    ({ wInvRow with discount := none } : RawInvRow).discount = none ∧
    (processInventoryRow { wInvRow with discount := none }).discount = 0 ∧
    (processOdooRow wOdooRow).quantity = 1 ∧
    (processOdooRow wOdooRow).label = pyStr (some "B9") ∧
    (processOdooRow wOdooRow).product_name = "LOT SAREES" ∧
    (processOdooRow wOdooRow).discount = 0 :=
  ⟨(C4_row_normalizer wInvRow wOdooRow).1,
   (C4_row_normalizer wInvRow wOdooRow).2.1,
   (C4_row_normalizer wInvRow wOdooRow).2.2.1,
   rfl,
   (C4_row_normalizer { wInvRow with discount := none } wOdooRow).2.2.2.1 rfl,
   (C4_row_normalizer wInvRow wOdooRow).2.2.2.2⟩

/-- C3 counterexample: at the pair of empty normalized inputs
(n = m = 0) the Dataset Combiner does not return an n+m = 0-row table;
it raises the no-input error instead, so the claim as stated fails at
this concrete input. -/
theorem C3_counterexample :
    processFiles (some ([] : List RawInvRow)) (some ([] : List RawOdooRow)) =
      Except.error "Error processing files: No valid files provided" ∧
    (processFiles (some ([] : List RawInvRow))
      (some ([] : List RawOdooRow))).toOption = none :=
  ⟨rfl, rfl⟩

/-- C3 (amended): for every pair of normalized inputs of which at least
one is nonempty, the Dataset Combiner returns exactly n+m rows with the
inventory rows first, relative order preserved within each source
(the output is literally the two mapped sources concatenated), and no
row dropped, merged, or deduplicated: every row value keeps its full
multiplicity. -/
theorem C3_combiner_concat (inv : List RawInvRow) (od : List RawOdooRow)
    (h : inv ≠ [] ∨ od ≠ []) :
    processFiles (some inv) (some od) =
      Except.ok (processSingleFileInv inv ++ processSingleFileOdoo od) ∧
    (processSingleFileInv inv ++ processSingleFileOdoo od).length =
      inv.length + od.length ∧
    ∀ r : NormalizedRow,
      (processSingleFileInv inv ++ processSingleFileOdoo od).count r =
        (processSingleFileInv inv).count r + (processSingleFileOdoo od).count r := by
  refine ⟨?_, ?_, ?_⟩
  · rcases hinv : inv with _ | ⟨a, as⟩ <;> rcases hod : od with _ | ⟨b, bs⟩
    · simp [hinv, hod] at h
    · simp [processFiles, processSingleFileInv, processSingleFileOdoo]
    · simp [processFiles, processSingleFileInv, processSingleFileOdoo]
    · simp [processFiles, processSingleFileInv, processSingleFileOdoo]
  · simp [processSingleFileInv, processSingleFileOdoo]
  · intro r
    exact List.count_append r _ _

/-- C3 witness: the amended combiner claim evaluated at a one-row
inventory input and an empty ODOO input. -/
theorem C3_combiner_concat_witness :
    processFiles (some [wInvRow]) (some ([] : List RawOdooRow)) =
      Except.ok (processSingleFileInv [wInvRow] ++ processSingleFileOdoo []) ∧
    (processSingleFileInv [wInvRow] ++ processSingleFileOdoo []).length = 1 :=
  ⟨(C3_combiner_concat [wInvRow] [] (Or.inl (by decide))).1,
   (C3_combiner_concat [wInvRow] [] (Or.inl (by decide))).2.1⟩

/-- C8: the Dataset Combiner fails with the no-input error when neither
source is supplied, and the very same error is the result whenever both
supplied sources normalize to zero rows: supplying files does not by
itself rule out the no-input error. -/
theorem C8_no_input_error (inv : List RawInvRow) (od : List RawOdooRow)
    (h1 : processSingleFileInv inv = []) (h2 : processSingleFileOdoo od = []) :
    processFiles none none =
      Except.error "Error processing files: No valid files provided" ∧
    processFiles (some inv) (some od) =
      Except.error "Error processing files: No valid files provided" := by
  constructor
  · rfl
  · simp [processFiles, h1, h2]

/-- C8 witness: the no-input error evaluated at two supplied but empty
sources. -/
theorem C8_no_input_error_witness :
    processFiles none none =
      Except.error "Error processing files: No valid files provided" ∧
    processFiles (some ([] : List RawInvRow)) (some ([] : List RawOdooRow)) =
      Except.error "Error processing files: No valid files provided" :=
  C8_no_input_error [] [] rfl rfl

/-- C9 counterexample: an actual merge result places the discount column
before the source column, so its header differs from the spec's stated
order (vendor_name, product_name, unit_price, label, quantity, source,
discount) at this concrete input. -/
theorem C9_counterexample :
    processFiles (some [wInvRow]) none =
      Except.ok [processInventoryRow wInvRow] ∧
    (processInventoryRow wInvRow).record.map Prod.fst ≠ specMergedColumns := by
  exact ⟨rfl, by decide⟩

/-- C9 (amended): every row of every merge result carries exactly the
columns vendor_name, product_name, unit_price, label, quantity,
discount, source — in that order, with discount always present and
placed before source. -/
theorem C9_merged_columns (invF : Option (List RawInvRow))
    (odF : Option (List RawOdooRow)) (out : List NormalizedRow)
    (_h : processFiles invF odF = Except.ok out) :
    ∀ r ∈ out, r.record.map Prod.fst = finalColumns ∧
      r.record.map Prod.fst =
        ["vendor_name", "product_name", "unit_price", "label", "quantity",
         "discount", "source"] := by
  intro r _
  exact ⟨rfl, rfl⟩

/-- C9 witness: the merged column order evaluated on a concrete one-row
merge. -/
theorem C9_merged_columns_witness :
    (processInventoryRow wInvRow).record.map Prod.fst = finalColumns ∧
    (processInventoryRow wInvRow).record.map Prod.fst =
      ["vendor_name", "product_name", "unit_price", "label", "quantity",
       "discount", "source"] :=
  C9_merged_columns (some [wInvRow]) none [processInventoryRow wInvRow] rfl
    (processInventoryRow wInvRow) (by decide)

/-- One Odoo credit-note line value as submitted in the create call
(app.py lines 304-310). -/
structure LineVal where
  product_id : Nat
  quantity : Rat
  price_unit : Rat
  discount : Rat
  name : String
deriving DecidableEq

/-- One account.move record as submitted in the create call (app.py
lines 317-328). Dates are day numbers (`today` and `today + 1`). -/
structure CreditNote where
  move_type : String
  partner_id : Nat
  invoice_date : Nat
  invoice_date_due : Nat
  ref : String
  invoice_line_ids : List LineVal
deriving DecidableEq

/-- The remote Odoo service as seen through the three calls the poster
makes: res.partner search by exact name with limit 1 (app.py lines
268-273), product.product search by case-insensitive substring with
limit 1 (lines 289-294), and account.move create returning the new
document id (lines 317-328). A lookup miss is `none`. -/
structure OdooEnv where
  vendorId : String → Option Nat
  productId : String → Option Nat
  createId : CreditNote → Nat

/-- app.py line 301: `price * (1 - discount / 100) if discount > 0 else
price`. -/
def finalPrice (price discount : Rat) : Rat :=
  if discount > 0 then price * (1 - discount / 100) else price

/-- Lines 281-310 for one aggregated row: resolve the product (stripped
name, ilike search); a miss yields the per-line skip message, a hit
yields the line value with the discounted unit price, the raw discount
percentage, and the description embedding name, lots and discount. -/
def buildLine (env : OdooEnv) (g : GroupedRow) : Except String LineVal :=
  match env.productId g.Product.trim with
  | none =>
      Except.error ("❌ Product '" ++ g.Product.trim ++
        "' not found. Skipping this line.")
  | some pid =>
      Except.ok
        { product_id := pid
          quantity := g.Quantity
          price_unit := finalPrice g.CostPrice g.Discount
          discount := g.Discount
          name := g.Product.trim ++ " (Lots: " ++ g.LotNumber ++
            ") - Discount: " ++ toString g.Discount ++ "%" }

/-- The per-line skip messages a vendor's group produces, in line
order. -/
def lineSkips (env : OdooEnv) (group : List GroupedRow) : List String :=
  group.filterMap (fun g =>
    match buildLine env g with
    | Except.error m => some m
    | Except.ok _ => none)

/-- The resolved line values of a vendor's group (line_vals), in line
order: a failing line is excluded, all others are kept. -/
def lineVals (env : OdooEnv) (group : List GroupedRow) : List LineVal :=
  group.filterMap (fun g => (buildLine env g).toOption)

/-- The account.move record built at app.py lines 317-328: fixed
vendor-reversal move type, issue date today, due date today + 1, fixed
reference "Damage". -/
def mkCreditNote (vendor_id today : Nat) (lines : List LineVal) :
    CreditNote where
  move_type := "in_refund"
  partner_id := vendor_id
  invoice_date := today
  invoice_date_due := today + 1
  ref := "Damage"
  invoice_line_ids := lines

/-- One iteration of the vendor loop (app.py lines 266-330): the
messages appended for this vendor, in order, and the create calls made
for it (zero or one). -/
def processVendor (env : OdooEnv) (today : Nat) (vendor_name : String)
    (group : List GroupedRow) : List String × List CreditNote :=
  match env.vendorId vendor_name with
  | none =>
      (["❌ Vendor '" ++ vendor_name ++ "' not found. Skipping vendor."], [])
  | some vendor_id =>
      let skips := lineSkips env group
      let vals := lineVals env group
      if vals.isEmpty then
        (skips ++ ["❌ No valid lines for vendor '" ++ vendor_name ++
          "'. Skipping."], [])
      else
        let note := mkCreditNote vendor_id today vals
        (skips ++ ["✅ Vendor Credit Note created for '" ++ vendor_name ++
          "' with ID: " ++ toString (env.createId note)], [note])

/-- The vendor names of df_grouped in the sorted order of the second
groupby (app.py line 266). -/
def vendorsOf (gs : List GroupedRow) : List String :=
  (firstSeen (gs.map GroupedRow.Vendor)).insertionSort
    (fun a b => strLe a b = true)

/-- A vendor's aggregated rows in df_grouped order (the group handed to
one iteration of the vendor loop). -/
def vendorGroup (gs : List GroupedRow) (v : String) : List GroupedRow :=
  gs.filter (fun g => g.Vendor = v)

/-- The vendor loop run over an explicit vendor list: one
(messages, creates) pair per vendor, in order. -/
def runVendors (env : OdooEnv) (today : Nat) (gs : List GroupedRow)
    (vs : List String) : List (List String × List CreditNote) :=
  vs.map (fun v => processVendor env today v (vendorGroup gs v))

/-- The whole posting loop (app.py lines 263-332): the flat ordered
result message list and the sequence of create calls made. -/
def postCreditNotes (env : OdooEnv) (today : Nat) (gs : List GroupedRow) :
    List String × List CreditNote :=
  (((runVendors env today gs (vendorsOf gs)).map Prod.fst).flatten,
   ((runVendors env today gs (vendorsOf gs)).map Prod.snd).flatten)

/-- The required posting-input column set of app.py line 232. -/
def requiredColumns : List String :=
  ["vendor_name", "product_name", "unit_price", "quantity", "label",
   "discount"]

/-- The posting-stage upload: its column header and its parsed rows. -/
structure UploadedFile where
  columns : List String
  rows : List PostRow

/-- process_odoo_integration (app.py lines 226-335): reject the upload
on the first missing required column (lines 232-235), otherwise group
(lines 258-261) and run the vendor loop; any failure raised inside is
wrapped by line 335 with the contextual message. -/
def process_odoo_integration (file : UploadedFile) (env : OdooEnv)
    (today : Nat) : Except String (List String × List CreditNote) :=
  match requiredColumns.find? (fun c => !(file.columns.contains c)) with
  | some c =>
      Except.error ("Error processing Odoo integration: " ++
        ("Missing required column: " ++ c))
  | none => Except.ok (postCreditNotes env today (dfGrouped file.rows))

/-- C2: a resolved line's submitted effective price equals
price * (1 - d/100) when the discount d is positive, and equals the
unit price exactly unchanged when d = 0: the no-discount branch of
line 301 performs no arithmetic on the price at all. -/
theorem C2_effective_price (env : OdooEnv) (g : GroupedRow) (line : LineVal)
    (h : buildLine env g = Except.ok line) :
    (g.Discount > 0 → line.price_unit = g.CostPrice * (1 - g.Discount / 100)) ∧
    (g.Discount = 0 → line.price_unit = g.CostPrice) := by
  unfold buildLine at h
  cases hp : env.productId g.Product.trim with
  | none => rw [hp] at h; cases h
  | some pid =>
    rw [hp] at h
    cases h
    constructor
    · intro hd
      simp [finalPrice, hd]
    · intro hd
      simp [finalPrice, hd]

/-- Concrete aggregated row with a positive discount, used to
instantiate the poster theorems. -/
def wGrouped1 : GroupedRow where
  Vendor := "V1"
  Product := "Saree"
  CostPrice := 100
  Discount := 10
  Quantity := 2
  LotNumber := "L1, L2"

/-- Concrete aggregated row with a zero discount. -/
def wGrouped0 : GroupedRow where
  Vendor := "V1"
  Product := "Shawl"
  CostPrice := 50
  Discount := 0
  Quantity := 1
  LotNumber := "L3"

/-- Environment in which every lookup succeeds and create returns 42. -/
def envAllFound : OdooEnv where
  vendorId := fun _ => some 5
  productId := fun _ => some 7
  createId := fun _ => 42

/-- Environment in which the vendor "V1" resolves but no product does. -/
def envNoProduct : OdooEnv where
  vendorId := fun s => if s = "V1" then some 5 else none
  productId := fun _ => none
  createId := fun _ => 42

/-- C2 witness: the effective-price cases evaluated on a concrete
resolved line with discount 10 and on one with discount 0. -/
theorem C2_effective_price_witness :
    ((10 : Rat) > 0 →
      (LineVal.mk 7 wGrouped1.Quantity
        (finalPrice wGrouped1.CostPrice wGrouped1.Discount) wGrouped1.Discount
        (wGrouped1.Product.trim ++ " (Lots: " ++ wGrouped1.LotNumber ++
          ") - Discount: " ++ toString wGrouped1.Discount ++ "%")).price_unit =
        (100 : Rat) * (1 - 10 / 100)) ∧
    ((0 : Rat) = 0 →
      (LineVal.mk 7 wGrouped0.Quantity
        (finalPrice wGrouped0.CostPrice wGrouped0.Discount) wGrouped0.Discount
        (wGrouped0.Product.trim ++ " (Lots: " ++ wGrouped0.LotNumber ++
          ") - Discount: " ++ toString wGrouped0.Discount ++ "%")).price_unit =
        (50 : Rat)) :=
  ⟨(C2_effective_price envAllFound wGrouped1 _ rfl).1,
   (C2_effective_price envAllFound wGrouped0 _ rfl).2⟩

/-- C10: a resolved line with positive discount d carries the discount
twice in the same create call: its unit price is already reduced to
price * (1 - d/100), its separate discount field is still set to d, and
d is embedded once more in the line description. -/
theorem C10_discount_carried_twice (env : OdooEnv) (g : GroupedRow)
    (line : LineVal) (hd : g.Discount > 0)
    (h : buildLine env g = Except.ok line) :
    line.price_unit = g.CostPrice * (1 - g.Discount / 100) ∧
    line.discount = g.Discount ∧
    line.name = g.Product.trim ++ " (Lots: " ++ g.LotNumber ++
      ") - Discount: " ++ toString g.Discount ++ "%" := by
  unfold buildLine at h
  cases hp : env.productId g.Product.trim with
  | none => rw [hp] at h; cases h
  | some pid =>
    rw [hp] at h
    cases h
    exact ⟨by simp [finalPrice, hd], rfl, rfl⟩

/-- C10 witness: the doubled discount evaluated on a concrete resolved
line with discount 10. -/
theorem C10_discount_carried_twice_witness :
    (LineVal.mk 7 wGrouped1.Quantity
      (finalPrice wGrouped1.CostPrice wGrouped1.Discount) wGrouped1.Discount
      (wGrouped1.Product.trim ++ " (Lots: " ++ wGrouped1.LotNumber ++
        ") - Discount: " ++ toString wGrouped1.Discount ++ "%")).price_unit =
      (100 : Rat) * (1 - 10 / 100) ∧
    (LineVal.mk 7 wGrouped1.Quantity
      (finalPrice wGrouped1.CostPrice wGrouped1.Discount) wGrouped1.Discount
      (wGrouped1.Product.trim ++ " (Lots: " ++ wGrouped1.LotNumber ++
        ") - Discount: " ++ toString wGrouped1.Discount ++ "%")).discount =
      (10 : Rat) ∧
    (LineVal.mk 7 wGrouped1.Quantity
      (finalPrice wGrouped1.CostPrice wGrouped1.Discount) wGrouped1.Discount
      (wGrouped1.Product.trim ++ " (Lots: " ++ wGrouped1.LotNumber ++
        ") - Discount: " ++ toString wGrouped1.Discount ++ "%")).name =
      wGrouped1.Product.trim ++ " (Lots: " ++ wGrouped1.LotNumber ++
        ") - Discount: " ++ toString wGrouped1.Discount ++ "%" :=
  C10_discount_carried_twice envAllFound wGrouped1 _ (by decide) rfl

/-- C5: skip semantics of the posting loop. A vendor whose name lookup
fails contributes exactly its one skip message and no create call, and
the loop over the remaining vendors is untouched; a product whose
lookup fails contributes exactly its one skip message and only its line
is excluded, the vendor's other lines being processed unchanged; a
vendor none of whose lines resolve gets the vendor-level skip message
and no create call. -/
theorem C5_skip_and_continue (env : OdooEnv) (today : Nat) (v : String)
    (g1 g2 : List GroupedRow) (bad : GroupedRow)
    (hbad : env.productId bad.Product.trim = none) :
    (env.vendorId v = none →
      processVendor env today v (g1 ++ bad :: g2) =
        (["❌ Vendor '" ++ v ++ "' not found. Skipping vendor."], []) ∧
      ∀ (gs : List GroupedRow) (vs1 vs2 : List String),
        runVendors env today gs (vs1 ++ v :: vs2) =
          runVendors env today gs vs1 ++
            (["❌ Vendor '" ++ v ++ "' not found. Skipping vendor."], []) ::
              runVendors env today gs vs2) ∧
    (∀ vid, env.vendorId v = some vid →
      lineSkips env (g1 ++ bad :: g2) =
        lineSkips env g1 ++
          ("❌ Product '" ++ bad.Product.trim ++
            "' not found. Skipping this line.") :: lineSkips env g2 ∧
      lineVals env (g1 ++ bad :: g2) = lineVals env g1 ++ lineVals env g2 ∧
      (lineVals env g1 ++ lineVals env g2 = [] →
        processVendor env today v (g1 ++ bad :: g2) =
          (lineSkips env (g1 ++ bad :: g2) ++
            ["❌ No valid lines for vendor '" ++ v ++ "'. Skipping."], []))) := by
  constructor
  · intro hv
    constructor
    · unfold processVendor
      rw [hv]
    · intro gs vs1 vs2
      unfold runVendors
      rw [List.map_append, List.map_cons]
      unfold processVendor
      rw [hv]
  · intro vid hv
    refine ⟨?_, ?_, ?_⟩
    · unfold lineSkips
      rw [List.filterMap_append, List.filterMap_cons]
      unfold buildLine
      rw [hbad]
    · unfold lineVals
      rw [List.filterMap_append, List.filterMap_cons]
      unfold buildLine
      rw [hbad]
      rfl
    · intro hempty
      have hvals : lineVals env (g1 ++ bad :: g2) = [] := by
        unfold lineVals at hempty ⊢
        rw [List.filterMap_append, List.filterMap_cons]
        unfold buildLine
        rw [hbad]
        exact hempty
      unfold processVendor
      rw [hv]
      simp only [hvals, List.isEmpty_nil, if_pos]

/-- Aggregated row whose product is nowhere in the remote service. -/
def wGroupedBad : GroupedRow where
  Vendor := "V1"
  Product := "Ghost"
  CostPrice := 10
  Discount := 0
  Quantity := 1
  LotNumber := "L9"

/-- C5 witness: the three skip behaviours evaluated concretely — a
missing vendor yields its single skip pair inside an otherwise
unchanged loop, and a vendor whose only line has an unknown product
yields the line skip followed by the vendor-level skip with no
create call. -/
theorem C5_skip_and_continue_witness :
    (processVendor envNoProduct 0 "V2" ([] ++ wGroupedBad :: []) =
      (["❌ Vendor '" ++ "V2" ++ "' not found. Skipping vendor."], []) ∧
      ∀ (gs : List GroupedRow) (vs1 vs2 : List String),
        runVendors envNoProduct 0 gs (vs1 ++ "V2" :: vs2) =
          runVendors envNoProduct 0 gs vs1 ++
            (["❌ Vendor '" ++ "V2" ++ "' not found. Skipping vendor."], []) ::
              runVendors envNoProduct 0 gs vs2) ∧
    (lineVals envNoProduct ([] ++ wGroupedBad :: []) = [] →
      processVendor envNoProduct 0 "V1" ([] ++ wGroupedBad :: []) =
        (lineSkips envNoProduct ([] ++ wGroupedBad :: []) ++
          ["❌ No valid lines for vendor '" ++ "V1" ++ "'. Skipping."], [])) :=
  ⟨(C5_skip_and_continue envNoProduct 0 "V2" [] [] wGroupedBad rfl).1 rfl,
   fun hempty =>
     ((C5_skip_and_continue envNoProduct 0 "V1" [] [] wGroupedBad rfl).2
       5 rfl).2.2 hempty⟩

/-- C6: a vendor with at least one resolved line triggers exactly one
create call carrying all of that vendor's resolved lines, the fixed
vendor-reversal move type "in_refund", issue date today, due date
today + 1, and the fixed reference "Damage", and the vendor's final
message reports the identifier returned by the create call. -/
theorem C6_one_create_call (env : OdooEnv) (today : Nat) (v : String)
    (vid : Nat) (group : List GroupedRow) (hv : env.vendorId v = some vid)
    (hnz : lineVals env group ≠ []) :
    processVendor env today v group =
      (lineSkips env group ++
        ["✅ Vendor Credit Note created for '" ++ v ++ "' with ID: " ++
          toString (env.createId (mkCreditNote vid today (lineVals env group)))],
       [mkCreditNote vid today (lineVals env group)]) ∧
    (processVendor env today v group).2.length = 1 ∧
    (mkCreditNote vid today (lineVals env group)).move_type = "in_refund" ∧
    (mkCreditNote vid today (lineVals env group)).invoice_date = today ∧
    (mkCreditNote vid today (lineVals env group)).invoice_date_due = today + 1 ∧
    (mkCreditNote vid today (lineVals env group)).ref = "Damage" ∧
    (mkCreditNote vid today (lineVals env group)).invoice_line_ids =
      lineVals env group ∧
    (processVendor env today v group).1.getLast? =
      some (("✅ Vendor Credit Note created for '" ++ v ++ "' with ID: ") ++
        toString (env.createId (mkCreditNote vid today (lineVals env group)))) := by
  have hni : ¬((lineVals env group).isEmpty = true) := by
    simpa [List.isEmpty_iff] using hnz
  have hpv : processVendor env today v group =
      (lineSkips env group ++
        ["✅ Vendor Credit Note created for '" ++ v ++ "' with ID: " ++
          toString (env.createId (mkCreditNote vid today (lineVals env group)))],
       [mkCreditNote vid today (lineVals env group)]) := by
    unfold processVendor
    rw [hv]
    simp only [if_neg hni]
  refine ⟨hpv, ?_, rfl, rfl, rfl, rfl, rfl, ?_⟩
  · rw [hpv]
    rfl
  · rw [hpv]
    simp [String.append_assoc]


/-- C6 witness: one concrete vendor with one resolved line makes exactly
the one create call with the fixed header and the id-bearing success
message. -/
theorem C6_one_create_call_witness :
    processVendor envAllFound 3 "V1" [wGrouped1] =
      (lineSkips envAllFound [wGrouped1] ++
        ["✅ Vendor Credit Note created for '" ++ "V1" ++ "' with ID: " ++
          toString (envAllFound.createId
            (mkCreditNote 5 3 (lineVals envAllFound [wGrouped1])))],
       [mkCreditNote 5 3 (lineVals envAllFound [wGrouped1])]) ∧
    (processVendor envAllFound 3 "V1" [wGrouped1]).2.length = 1 ∧
    (mkCreditNote 5 3 (lineVals envAllFound [wGrouped1])).move_type =
      "in_refund" ∧
    (mkCreditNote 5 3 (lineVals envAllFound [wGrouped1])).invoice_date = 3 ∧
    (mkCreditNote 5 3 (lineVals envAllFound [wGrouped1])).invoice_date_due =
      3 + 1 ∧
    (mkCreditNote 5 3 (lineVals envAllFound [wGrouped1])).ref = "Damage" ∧
    (mkCreditNote 5 3 (lineVals envAllFound [wGrouped1])).invoice_line_ids =
      lineVals envAllFound [wGrouped1] ∧
    (processVendor envAllFound 3 "V1" [wGrouped1]).1.getLast? =
      some (("✅ Vendor Credit Note created for '" ++ "V1" ++ "' with ID: ") ++
        toString (envAllFound.createId
          (mkCreditNote 5 3 (lineVals envAllFound [wGrouped1])))) :=
  C6_one_create_call envAllFound 3 "V1" 5 [wGrouped1] rfl
    (by simp [lineVals, buildLine, envAllFound, Except.toOption])

/-- C7: an upload missing any required posting column is rejected before
any remote interaction — the outcome is the same under every
environment and date — with a validation error naming a missing
required column; and every failure the posting operation surfaces is
the contextual wrapping message followed by the inner text, not a
structured code. -/
theorem C7_missing_column_validation (file : UploadedFile)
    (env env2 : OdooEnv) (today today2 : Nat) (c : String)
    (hc : c ∈ requiredColumns) (hmiss : file.columns.contains c = false) :
    (∃ c2, c2 ∈ requiredColumns ∧ file.columns.contains c2 = false ∧
      process_odoo_integration file env today =
        Except.error ("Error processing Odoo integration: " ++
          ("Missing required column: " ++ c2))) ∧
    process_odoo_integration file env today =
      process_odoo_integration file env2 today2 ∧
    (∀ (f2 : UploadedFile) (e : String),
      process_odoo_integration f2 env today = Except.error e →
      ∃ s, e = "Error processing Odoo integration: " ++ s) := by
  have hsome : (requiredColumns.find?
      (fun c => !(file.columns.contains c))).isSome = true := by
    rw [List.find?_isSome]
    exact ⟨c, hc, by rw [hmiss]; rfl⟩
  rcases Option.isSome_iff_exists.mp hsome with ⟨c2, hfind⟩
  have hc2mem : c2 ∈ requiredColumns := List.mem_of_find?_eq_some hfind
  have hc2miss : file.columns.contains c2 = false := by
    have := List.find?_some hfind
    simpa using this
  refine ⟨⟨c2, hc2mem, hc2miss, ?_⟩, ?_, ?_⟩
  · unfold process_odoo_integration
    rw [hfind]
  · unfold process_odoo_integration
    rw [hfind]
  · intro f2 e he
    unfold process_odoo_integration at he
    cases hf2 : requiredColumns.find? (fun c => !(f2.columns.contains c)) with
    | none => rw [hf2] at he; cases he
    | some c3 =>
      rw [hf2] at he
      cases he
      exact ⟨"Missing required column: " ++ c3, rfl⟩

/-- C7 witness: an upload carrying only the vendor_name column is
rejected naming a missing column, identically under two different
environments and dates. -/
theorem C7_missing_column_validation_witness :
    (∃ c2, c2 ∈ requiredColumns ∧
      (UploadedFile.mk ["vendor_name"] []).columns.contains c2 = false ∧
      process_odoo_integration (UploadedFile.mk ["vendor_name"] [])
          envAllFound 0 =
        Except.error ("Error processing Odoo integration: " ++
          ("Missing required column: " ++ c2))) ∧
    process_odoo_integration (UploadedFile.mk ["vendor_name"] [])
        envAllFound 0 =
      process_odoo_integration (UploadedFile.mk ["vendor_name"] [])
        envNoProduct 7 ∧
    (∀ (f2 : UploadedFile) (e : String),
      process_odoo_integration f2 envAllFound 0 = Except.error e →
      ∃ s, e = "Error processing Odoo integration: " ++ s) :=
  C7_missing_column_validation (UploadedFile.mk ["vendor_name"] [])
    envAllFound envNoProduct 0 7 "product_name" (by decide) (by decide)
